import Mathlib

/-!
Shallow embedding of `src/app/app.py` (dynamic-mcp-demo): a static registry
`MCP_CONFIGS` mapping endpoint keys to MCP configurations, and the read-only
HTTP handlers `root`, `get_mcp_config`, `get_mcp_server_info`, `get_mcp_tools`,
`get_tool_description` and `list_all_endpoints`.

The Python dict is embedded as an ordered association list (Python dicts
preserve insertion order); `HTTPException(status_code, detail)` becomes the
`HTTPError` structure and a handler that can raise it returns `Except`.
JSON-like `inputSchema` dictionaries become the `JsonValue` inductive.
-/

/-- JSON-like values, used for the `inputSchema` dictionaries (Python
`Dict[str, Any]`): objects keep their key order as written in the source. -/
inductive JsonValue where
  | str (s : String)
  | nat (n : Nat)
  | bool (b : Bool)
  | arr (elems : List JsonValue)
  | obj (fields : List (String × JsonValue))
deriving Repr

/-- Field lookup in a JSON object: first field with the given key. -/
def JsonValue.getField : JsonValue → String → Option JsonValue
  | .obj fields, key => (fields.find? (fun p => p.1 == key)).map Prod.snd
  | _, _ => none

/-- Embeds the pydantic model `Tool` (app.py lines 48-52). -/
structure Tool where
  name : String
  description : String
  inputSchema : JsonValue
deriving Repr

/-- Embeds the pydantic model `ServerInfo` (app.py lines 55-59). -/
structure ServerInfo where
  name : String
  version : String
  description : Option String := none
deriving Repr

/-- Embeds the pydantic model `MCPConfig` (app.py lines 62-65). -/
structure MCPConfig where
  server : ServerInfo
  tools : List Tool
deriving Repr

/-- Embeds `fastapi.HTTPException` as raised in app.py: a status code and a
human-readable detail message. -/
structure HTTPError where
  status_code : Nat
  detail : String
deriving Repr

/-- The registry type: an ordered mapping from endpoint key to configuration
(Python `Dict[str, MCPConfig]`, insertion-ordered). -/
abbrev Registry := List (String × MCPConfig)

/-- The `weather` entry of `MCP_CONFIGS` (app.py lines 72-121). -/
def weatherConfig : MCPConfig :=
  { server :=
      { name := "Weather MCP Server"
      , version := "1.0.0"
      , description := some "提供天气查询相关的工具" }
  , tools :=
      [ { name := "get_weather"
        , description := "获取指定城市的天气信息"
        , inputSchema := .obj
            [ ("type", .str "object")
            , ("properties", .obj
                [ ("city", .obj
                    [ ("type", .str "string")
                    , ("description", .str "要查询天气的城市名称") ])
                , ("unit", .obj
                    [ ("type", .str "string")
                    , ("enum", .arr [.str "celsius", .str "fahrenheit"])
                    , ("description", .str "温度单位")
                    , ("default", .str "celsius") ]) ])
            , ("required", .arr [.str "city"]) ] }
      , { name := "get_forecast"
        , description := "获取指定城市的天气预报"
        , inputSchema := .obj
            [ ("type", .str "object")
            , ("properties", .obj
                [ ("city", .obj
                    [ ("type", .str "string")
                    , ("description", .str "要查询天气预报的城市名称") ])
                , ("days", .obj
                    [ ("type", .str "integer")
                    , ("description", .str "预报天数（1-7天）")
                    , ("minimum", .nat 1)
                    , ("maximum", .nat 7)
                    , ("default", .nat 3) ]) ])
            , ("required", .arr [.str "city"]) ] } ] }

/-- The `database` entry of `MCP_CONFIGS` (app.py lines 122-183). -/
def databaseConfig : MCPConfig :=
  { server :=
      { name := "Database MCP Server"
      , version := "1.0.0"
      , description := some "提供数据库操作相关的工具" }
  , tools :=
      [ { name := "query_database"
        , description := "执行SQL查询"
        , inputSchema := .obj
            [ ("type", .str "object")
            , ("properties", .obj
                [ ("sql", .obj
                    [ ("type", .str "string")
                    , ("description", .str "要执行的SQL查询语句") ])
                , ("database", .obj
                    [ ("type", .str "string")
                    , ("description", .str "数据库名称")
                    , ("default", .str "default") ]) ])
            , ("required", .arr [.str "sql"]) ] }
      , { name := "execute_command"
        , description := "执行数据库命令（INSERT, UPDATE, DELETE）"
        , inputSchema := .obj
            [ ("type", .str "object")
            , ("properties", .obj
                [ ("command", .obj
                    [ ("type", .str "string")
                    , ("description", .str "要执行的SQL命令") ])
                , ("database", .obj
                    [ ("type", .str "string")
                    , ("description", .str "数据库名称")
                    , ("default", .str "default") ]) ])
            , ("required", .arr [.str "command"]) ] }
      , { name := "list_tables"
        , description := "列出数据库中的所有表"
        , inputSchema := .obj
            [ ("type", .str "object")
            , ("properties", .obj
                [ ("database", .obj
                    [ ("type", .str "string")
                    , ("description", .str "数据库名称")
                    , ("default", .str "default") ]) ])
            , ("required", .arr []) ] } ] }

/-- The `file` entry of `MCP_CONFIGS` (app.py lines 184-254). -/
def fileConfig : MCPConfig :=
  { server :=
      { name := "File System MCP Server"
      , version := "1.0.0"
      , description := some "提供文件系统操作相关的工具" }
  , tools :=
      [ { name := "read_file"
        , description := "读取文件内容"
        , inputSchema := .obj
            [ ("type", .str "object")
            , ("properties", .obj
                [ ("path", .obj
                    [ ("type", .str "string")
                    , ("description", .str "要读取的文件路径") ])
                , ("encoding", .obj
                    [ ("type", .str "string")
                    , ("description", .str "文件编码")
                    , ("default", .str "utf-8") ]) ])
            , ("required", .arr [.str "path"]) ] }
      , { name := "write_file"
        , description := "写入文件内容"
        , inputSchema := .obj
            [ ("type", .str "object")
            , ("properties", .obj
                [ ("path", .obj
                    [ ("type", .str "string")
                    , ("description", .str "要写入的文件路径") ])
                , ("content", .obj
                    [ ("type", .str "string")
                    , ("description", .str "要写入的文件内容") ])
                , ("encoding", .obj
                    [ ("type", .str "string")
                    , ("description", .str "文件编码")
                    , ("default", .str "utf-8") ]) ])
            , ("required", .arr [.str "path", .str "content"]) ] }
      , { name := "list_directory"
        , description := "列出目录内容"
        , inputSchema := .obj
            [ ("type", .str "object")
            , ("properties", .obj
                [ ("path", .obj
                    [ ("type", .str "string")
                    , ("description", .str "要列出的目录路径")
                    , ("default", .str ".") ])
                , ("recursive", .obj
                    [ ("type", .str "boolean")
                    , ("description", .str "是否递归列出子目录")
                    , ("default", .bool false) ]) ])
            , ("required", .arr []) ] } ] }

/-- The `api` entry of `MCP_CONFIGS` (app.py lines 255-305). -/
def apiConfig : MCPConfig :=
  { server :=
      { name := "API Client MCP Server"
      , version := "1.0.0"
      , description := some "提供HTTP API调用相关的工具" }
  , tools :=
      [ { name := "http_get"
        , description := "发送HTTP GET请求"
        , inputSchema := .obj
            [ ("type", .str "object")
            , ("properties", .obj
                [ ("url", .obj
                    [ ("type", .str "string")
                    , ("description", .str "请求的URL") ])
                , ("headers", .obj
                    [ ("type", .str "object")
                    , ("description", .str "HTTP请求头")
                    , ("additionalProperties", .obj [("type", .str "string")]) ]) ])
            , ("required", .arr [.str "url"]) ] }
      , { name := "http_post"
        , description := "发送HTTP POST请求"
        , inputSchema := .obj
            [ ("type", .str "object")
            , ("properties", .obj
                [ ("url", .obj
                    [ ("type", .str "string")
                    , ("description", .str "请求的URL") ])
                , ("body", .obj
                    [ ("type", .str "object")
                    , ("description", .str "请求体（JSON格式）") ])
                , ("headers", .obj
                    [ ("type", .str "object")
                    , ("description", .str "HTTP请求头")
                    , ("additionalProperties", .obj [("type", .str "string")]) ]) ])
            , ("required", .arr [.str "url", .str "body"]) ] } ] }

/-- The static registry `MCP_CONFIGS` (app.py lines 71-306), in the insertion
order of the Python dict literal. -/
def MCP_CONFIGS : Registry :=
  [ ("weather", weatherConfig)
  , ("database", databaseConfig)
  , ("file", fileConfig)
  , ("api", apiConfig) ]

/-- The keys registered in the registry, in order (`MCP_CONFIGS.keys()`). -/
def registeredKeys : List String := MCP_CONFIGS.map Prod.fst

/-- Dictionary lookup `MCP_CONFIGS[endpoint]` guarded by the membership test
`endpoint in MCP_CONFIGS`, over an arbitrary registry value. -/
def lookupConfigR (cfgs : Registry) (endpoint : String) : Option MCPConfig :=
  (cfgs.find? (fun p => p.1 == endpoint)).map Prod.snd

/-- Lookup in the actual registry of the program. -/
def lookupConfig (endpoint : String) : Option MCPConfig :=
  lookupConfigR MCP_CONFIGS endpoint

/-- The 404 detail built by every endpoint-lookup handler:
`f"MCP端点 '{endpoint}' 不存在。可用的端点: {available}"` with
`available = ", ".join(MCP_CONFIGS.keys())`. -/
def endpointNotFoundMsg (cfgs : Registry) (endpoint : String) : String :=
  "MCP端点 \x27" ++ endpoint ++ "\x27 不存在。可用的端点: "
    ++ String.intercalate ", " (cfgs.map Prod.fst)

/-- The 404 detail built by `get_tool_description` when the tool name is
missing: `f"工具 '{tool_name}' 在端点 '{endpoint}' 中不存在。可用的工具: {available_tools}"`
with `available_tools = ", ".join(t.name for t in config.tools)`. -/
def toolNotFoundMsg (config : MCPConfig) (endpoint tool_name : String) : String :=
  "工具 \x27" ++ tool_name ++ "\x27 在端点 \x27" ++ endpoint
    ++ "\x27 中不存在。可用的工具: "
    ++ String.intercalate ", " (config.tools.map Tool.name)

/-- Per-key summary inside the `endpoints_info` object of `GET /`. -/
structure EndpointInfo where
  server_name : String
  tools_count : Nat
deriving Repr

/-- The JSON object returned by the root endpoint `GET /`. -/
structure RootResponse where
  message : String
  available_endpoints : List String
  endpoints_info : List (String × EndpointInfo)
deriving Repr

/-- Handler `root` (app.py lines 311-324), over an arbitrary registry. -/
def rootR (cfgs : Registry) : RootResponse :=
  { message := "Dynamic MCP Demo Server"
  , available_endpoints := cfgs.map Prod.fst
  , endpoints_info :=
      cfgs.map (fun p => (p.1, { server_name := p.2.server.name
                               , tools_count := p.2.tools.length })) }

/-- Handler `get_mcp_config` (app.py lines 327-340), over an arbitrary
registry: 404 when the key is absent, the configuration otherwise. -/
def get_mcp_configR (cfgs : Registry) (endpoint : String) :
    Except HTTPError MCPConfig :=
  match lookupConfigR cfgs endpoint with
  | none => .error { status_code := 404, detail := endpointNotFoundMsg cfgs endpoint }
  | some config => .ok config

/-- Handler `get_mcp_server_info` (app.py lines 343-356), over an arbitrary
registry. -/
def get_mcp_server_infoR (cfgs : Registry) (endpoint : String) :
    Except HTTPError ServerInfo :=
  match lookupConfigR cfgs endpoint with
  | none => .error { status_code := 404, detail := endpointNotFoundMsg cfgs endpoint }
  | some config => .ok config.server

/-- Handler `get_mcp_tools` (app.py lines 359-372), over an arbitrary
registry. -/
def get_mcp_toolsR (cfgs : Registry) (endpoint : String) :
    Except HTTPError (List Tool) :=
  match lookupConfigR cfgs endpoint with
  | none => .error { status_code := 404, detail := endpointNotFoundMsg cfgs endpoint }
  | some config => .ok config.tools

/-- Handler `get_tool_description` (app.py lines 375-400), over an arbitrary
registry: `next((t for t in config.tools if t.name == tool_name), None)`. -/
def get_tool_descriptionR (cfgs : Registry) (endpoint tool_name : String) :
    Except HTTPError Tool :=
  match lookupConfigR cfgs endpoint with
  | none => .error { status_code := 404, detail := endpointNotFoundMsg cfgs endpoint }
  | some config =>
    match config.tools.find? (fun t => t.name == tool_name) with
    | none => .error { status_code := 404
                     , detail := toolNotFoundMsg config endpoint tool_name }
    | some tool => .ok tool

/-- Per-tool summary inside the `GET /list-endpoints` response. -/
structure ToolSummary where
  name : String
  description : String
deriving Repr

/-- Per-endpoint summary inside the `GET /list-endpoints` response. -/
structure EndpointSummary where
  endpoint : String
  server_name : String
  server_version : String
  server_description : Option String
  tools : List ToolSummary
deriving Repr

/-- Handler `list_all_endpoints` (app.py lines 403-423), over an arbitrary
registry; the JSON wraps this list in an object under the key `endpoints`. -/
def list_all_endpointsR (cfgs : Registry) : List EndpointSummary :=
  cfgs.map (fun p =>
    { endpoint := p.1
    , server_name := p.2.server.name
    , server_version := p.2.server.version
    , server_description := p.2.server.description
    , tools := p.2.tools.map (fun t => { name := t.name
                                       , description := t.description }) })

/-- `GET /` on the program registry. -/
def root : RootResponse := rootR MCP_CONFIGS

/-- `GET /mcp/(endpoint)` on the program registry. -/
def get_mcp_config (endpoint : String) : Except HTTPError MCPConfig :=
  get_mcp_configR MCP_CONFIGS endpoint

/-- `GET /mcp/(endpoint)/server` on the program registry. -/
def get_mcp_server_info (endpoint : String) : Except HTTPError ServerInfo :=
  get_mcp_server_infoR MCP_CONFIGS endpoint

/-- `GET /mcp/(endpoint)/tools` on the program registry. -/
def get_mcp_tools (endpoint : String) : Except HTTPError (List Tool) :=
  get_mcp_toolsR MCP_CONFIGS endpoint

/-- `GET /mcp/(endpoint)/tools/(tool_name)` on the program registry. -/
def get_tool_description (endpoint tool_name : String) : Except HTTPError Tool :=
  get_tool_descriptionR MCP_CONFIGS endpoint tool_name

/-- `GET /list-endpoints` on the program registry. -/
def list_all_endpoints : List EndpointSummary := list_all_endpointsR MCP_CONFIGS

/-- Programs over the mutable module-level registry variable: a program either
returns, reads the registry, or overwrites it. The handlers in app.py only ever
read `MCP_CONFIGS`; the `write` constructor exists so that "no handler writes"
is a fact about each handler, not about the language. -/
inductive RegProg (α : Type) where
  | ret (a : α)
  | read (k : Registry → RegProg α)
  | write (r : Registry) (k : RegProg α)

/-- State-passing interpreter for registry programs. -/
def RegProg.run {α : Type} : RegProg α → Registry → α × Registry
  | .ret a, s => (a, s)
  | .read k, s => (k s).run s
  | .write r k, _ => k.run r

/-- A program that never uses the `write` constructor. -/
inductive RegProg.NoWrite {α : Type} : RegProg α → Prop where
  | ret (a : α) : NoWrite (.ret a)
  | read (k : Registry → RegProg α) (h : ∀ s, NoWrite (k s)) : NoWrite (.read k)

/-- Handler `root` as a registry program: one read of `MCP_CONFIGS`, no write. -/
def rootP : RegProg RootResponse :=
  .read fun cfgs => .ret (rootR cfgs)

/-- Handler `get_mcp_config` as a registry program. -/
def get_mcp_configP (endpoint : String) : RegProg (Except HTTPError MCPConfig) :=
  .read fun cfgs => .ret (get_mcp_configR cfgs endpoint)

/-- Handler `get_mcp_server_info` as a registry program. -/
def get_mcp_server_infoP (endpoint : String) :
    RegProg (Except HTTPError ServerInfo) :=
  .read fun cfgs => .ret (get_mcp_server_infoR cfgs endpoint)

/-- Handler `get_mcp_tools` as a registry program. -/
def get_mcp_toolsP (endpoint : String) : RegProg (Except HTTPError (List Tool)) :=
  .read fun cfgs => .ret (get_mcp_toolsR cfgs endpoint)

/-- Handler `get_tool_description` as a registry program. -/
def get_tool_descriptionP (endpoint tool_name : String) :
    RegProg (Except HTTPError Tool) :=
  .read fun cfgs => .ret (get_tool_descriptionR cfgs endpoint tool_name)

/-- Handler `list_all_endpoints` as a registry program. -/
def list_all_endpointsP : RegProg (List EndpointSummary) :=
  .read fun cfgs => .ret (list_all_endpointsR cfgs)

/-! Helper lemmas shared by the claim theorems. -/

theorem RegProg.run_snd_of_noWrite {α : Type} :
    ∀ {p : RegProg α}, p.NoWrite → ∀ s : Registry, (p.run s).2 = s := by
  intro p h
  induction h with
  | ret a => intro s; rfl
  | read k h ih => intro s; exact ih s s

/-- `find?` returns the element at the first index satisfying the predicate. -/
theorem List.find?_eq_get_of_first {α : Type} (p : α → Bool) :
    ∀ (l : List α) (i : Nat) (hi : i < l.length),
      p (l.get ⟨i, hi⟩) = true →
      (∀ j (hj : j < i), p (l.get ⟨j, Nat.lt_trans hj hi⟩) = false) →
      l.find? p = some (l.get ⟨i, hi⟩) := by
  intro l
  induction l with
  | nil => intro i hi; exact absurd hi (Nat.not_lt_zero i)
  | cons a l ih =>
    intro i hi hp hfirst
    cases i with
    | zero => exact List.find?_cons_of_pos _ hp
    | succ i =>
      have ha : p a = false := hfirst 0 (Nat.succ_pos i)
      rw [List.find?_cons_of_neg _ (by simp [ha])]
      exact ih i (Nat.lt_of_succ_lt_succ hi) hp
        (fun j hj => hfirst (j + 1) (Nat.succ_lt_succ hj))

/-- A key outside `map Prod.fst` is not found by `lookupConfigR`. -/
theorem lookupConfigR_eq_none {cfgs : Registry} {k : String}
    (h : k ∉ cfgs.map Prod.fst) : lookupConfigR cfgs k = none := by
  unfold lookupConfigR
  have hfind : cfgs.find? (fun p => p.1 == k) = none := by
    rw [List.find?_eq_none]
    intro p hp hbeq
    exact h (beq_iff_eq.mp hbeq ▸ List.mem_map_of_mem Prod.fst hp)
  rw [hfind]
  rfl

/-- Every configuration in the registry has pairwise-distinct tool names. -/
theorem registry_tools_nodup :
    ∀ p ∈ MCP_CONFIGS, (p.2.tools.map Tool.name).Nodup := by decide

theorem get_mcp_configR_eq_error {cfgs : Registry} {e : String}
    (h : lookupConfigR cfgs e = none) :
    get_mcp_configR cfgs e = .error ⟨404, endpointNotFoundMsg cfgs e⟩ := by
  unfold get_mcp_configR
  simp only [h]

theorem get_mcp_configR_eq_ok {cfgs : Registry} {e : String} {c : MCPConfig}
    (h : lookupConfigR cfgs e = some c) : get_mcp_configR cfgs e = .ok c := by
  unfold get_mcp_configR
  simp only [h]

theorem get_mcp_server_infoR_eq_error {cfgs : Registry} {e : String}
    (h : lookupConfigR cfgs e = none) :
    get_mcp_server_infoR cfgs e = .error ⟨404, endpointNotFoundMsg cfgs e⟩ := by
  unfold get_mcp_server_infoR
  simp only [h]

theorem get_mcp_toolsR_eq_error {cfgs : Registry} {e : String}
    (h : lookupConfigR cfgs e = none) :
    get_mcp_toolsR cfgs e = .error ⟨404, endpointNotFoundMsg cfgs e⟩ := by
  unfold get_mcp_toolsR
  simp only [h]

theorem get_mcp_toolsR_eq_ok {cfgs : Registry} {e : String} {c : MCPConfig}
    (h : lookupConfigR cfgs e = some c) : get_mcp_toolsR cfgs e = .ok c.tools := by
  unfold get_mcp_toolsR
  simp only [h]

theorem get_tool_descriptionR_eq_error_endpoint {cfgs : Registry} {e tn : String}
    (h : lookupConfigR cfgs e = none) :
    get_tool_descriptionR cfgs e tn = .error ⟨404, endpointNotFoundMsg cfgs e⟩ := by
  unfold get_tool_descriptionR
  simp only [h]

theorem get_tool_descriptionR_eq_error_tool {cfgs : Registry} {e tn : String}
    {c : MCPConfig} (hc : lookupConfigR cfgs e = some c)
    (hf : c.tools.find? (fun t => t.name == tn) = none) :
    get_tool_descriptionR cfgs e tn = .error ⟨404, toolNotFoundMsg c e tn⟩ := by
  unfold get_tool_descriptionR
  simp only [hc, hf]

theorem get_tool_descriptionR_eq_ok {cfgs : Registry} {e tn : String}
    {c : MCPConfig} {t : Tool} (hc : lookupConfigR cfgs e = some c)
    (hf : c.tools.find? (fun u => u.name == tn) = some t) :
    get_tool_descriptionR cfgs e tn = .ok t := by
  unfold get_tool_descriptionR
  simp only [hc, hf]

/-- A successful `lookupConfigR` yields the second component of an entry of
the registry. -/
theorem lookupConfigR_mem {cfgs : Registry} {e : String} {c : MCPConfig}
    (h : lookupConfigR cfgs e = some c) : ∃ p ∈ cfgs, p.2 = c := by
  unfold lookupConfigR at h
  rcases Option.map_eq_some'.mp h with ⟨p, hp, hpc⟩
  exact ⟨p, List.mem_of_find?_eq_some hp, hpc⟩

/-- If a tool is a member of a list whose names are distinct, searching the
list for its name finds exactly that tool. -/
theorem find?_name_of_mem_nodup :
    ∀ (l : List Tool) (t : Tool), t ∈ l → (l.map Tool.name).Nodup →
      l.find? (fun u => u.name == t.name) = some t := by
  intro l
  induction l with
  | nil => intro t ht; exact absurd ht (List.not_mem_nil t)
  | cons a l ih =>
    intro t ht hnodup
    rcases List.mem_cons.mp ht with rfl | htl
    · exact List.find?_cons_of_pos _ (by simp)
    · have hne : a.name ≠ t.name := by
        intro heq
        have : t.name ∈ l.map Tool.name := List.mem_map_of_mem Tool.name htl
        exact (List.nodup_cons.mp (by simpa using hnodup)).1 (heq ▸ this)
      rw [List.find?_cons_of_neg _ (by simp [hne])]
      exact ih t htl (List.nodup_cons.mp (by simpa using hnodup)).2

/-! Claim theorems. -/

/-- Claim C1: for every endpoint key and tool name, `get_tool_description`
returns a 404 error when the key is absent from the registry, a 404 error when
the key is present but no tool in its configuration bears that name, and
otherwise the first tool of the configuration's ordered tool list whose name
equals the requested name exactly. -/
theorem C1_getTool_first_exact_match (endpoint tool_name : String) :
    (lookupConfig endpoint = none →
      ∃ e : HTTPError, get_tool_description endpoint tool_name = .error e ∧
        e.status_code = 404) ∧
    (∀ config : MCPConfig, lookupConfig endpoint = some config →
      ((∀ t ∈ config.tools, t.name ≠ tool_name) →
        ∃ e : HTTPError, get_tool_description endpoint tool_name = .error e ∧
          e.status_code = 404) ∧
      (∀ i : Nat, ∀ hi : i < config.tools.length,
        (config.tools.get ⟨i, hi⟩).name = tool_name →
        (∀ j (hj : j < i),
          (config.tools.get ⟨j, Nat.lt_trans hj hi⟩).name ≠ tool_name) →
        get_tool_description endpoint tool_name = .ok (config.tools.get ⟨i, hi⟩))) := by
  refine ⟨fun h => ⟨_, get_tool_descriptionR_eq_error_endpoint h, rfl⟩,
    fun config hc => ⟨fun hnone => ?_, fun i hi hname hfirst => ?_⟩⟩
  · have hf : config.tools.find? (fun t => t.name == tool_name) = none := by
      rw [List.find?_eq_none]
      intro t ht hbeq
      exact hnone t ht (beq_iff_eq.mp hbeq)
    exact ⟨_, get_tool_descriptionR_eq_error_tool hc hf, rfl⟩
  · have hf : config.tools.find? (fun u => u.name == tool_name) =
        some (config.tools.get ⟨i, hi⟩) :=
      List.find?_eq_get_of_first _ config.tools i hi (beq_iff_eq.mpr hname)
        (fun j hj => beq_eq_false_iff_ne.mpr (hfirst j hj))
    exact get_tool_descriptionR_eq_ok hc hf

/-- Witness for C1 at the weather endpoint: `get_forecast` sits at index 1 and
is returned by an exact-name lookup. -/
theorem C1_getTool_first_exact_match_witness :
    get_tool_description "weather" "get_forecast" =
      .ok (weatherConfig.tools.get ⟨1, by decide⟩) :=
  ((C1_getTool_first_exact_match "weather" "get_forecast").2 weatherConfig
    rfl).2 1 (by decide) (by decide)
    (fun j hj => by
      have hj0 : j = 0 := by omega
      subst hj0
      show (weatherConfig.tools.get ⟨0, by decide⟩).name ≠ "get_forecast"
      decide)

/-- Claim C2: for every key not present in the registry, each of the four
lookup operations returns a 404 error whose message lists exactly the keys
actually registered (joined with a comma into the detail string), and the
registered keys are weather, database, file and api. -/
theorem C2_absent_key_lists_registered (k : String) (h : k ∉ registeredKeys) :
    registeredKeys = ["weather", "database", "file", "api"] ∧
    get_mcp_config k = .error ⟨404, "MCP端点 \x27" ++ k
      ++ "\x27 不存在。可用的端点: " ++ String.intercalate ", " registeredKeys⟩ ∧
    get_mcp_server_info k = .error ⟨404, "MCP端点 \x27" ++ k
      ++ "\x27 不存在。可用的端点: " ++ String.intercalate ", " registeredKeys⟩ ∧
    get_mcp_tools k = .error ⟨404, "MCP端点 \x27" ++ k
      ++ "\x27 不存在。可用的端点: " ++ String.intercalate ", " registeredKeys⟩ ∧
    ∀ tn : String, get_tool_description k tn = .error ⟨404, "MCP端点 \x27" ++ k
      ++ "\x27 不存在。可用的端点: " ++ String.intercalate ", " registeredKeys⟩ := by
  have hnone : lookupConfigR MCP_CONFIGS k = none := lookupConfigR_eq_none h
  exact ⟨rfl, get_mcp_configR_eq_error hnone, get_mcp_server_infoR_eq_error hnone,
    get_mcp_toolsR_eq_error hnone,
    fun tn => get_tool_descriptionR_eq_error_endpoint hnone⟩

/-- Witness for C2 at the unregistered key `nope`. -/
theorem C2_absent_key_lists_registered_witness :
    ("nope" ∉ registeredKeys) ∧
    get_mcp_config "nope" = .error ⟨404, "MCP端点 \x27" ++ "nope"
      ++ "\x27 不存在。可用的端点: " ++ String.intercalate ", " registeredKeys⟩ :=
  ⟨by decide, (C2_absent_key_lists_registered "nope" (by decide)).2.1⟩

/-- Claim C3: every registered key resolves through `get_mcp_config` to a
configuration whose server name is the value seeded at start-up, and the
registered keys are exactly weather, database, file and api. -/
theorem C3_registered_keys_resolve :
    registeredKeys = ["weather", "database", "file", "api"] ∧
    (get_mcp_config "weather").map (fun c => c.server.name) =
      .ok "Weather MCP Server" ∧
    (get_mcp_config "database").map (fun c => c.server.name) =
      .ok "Database MCP Server" ∧
    (get_mcp_config "file").map (fun c => c.server.name) =
      .ok "File System MCP Server" ∧
    (get_mcp_config "api").map (fun c => c.server.name) =
      .ok "API Client MCP Server" :=
  ⟨rfl, rfl, rfl, rfl, rfl⟩

/-- Claim C4: for every registered key, the `tools_count` entry reported for
that key inside `endpoints_info` of the root response equals the length of the
tool list returned by `get_mcp_tools` for the same key. -/
theorem C4_tools_count_matches (k : String) (h : k ∈ registeredKeys) :
    ((root.endpoints_info.find? (fun p => p.1 == k)).map
        (fun p => p.2.tools_count)) =
      (get_mcp_tools k).toOption.map List.length := by
  have hk : k = "weather" ∨ k = "database" ∨ k = "file" ∨ k = "api" := by
    simpa [registeredKeys, MCP_CONFIGS] using h
  rcases hk with rfl | rfl | rfl | rfl <;> rfl

/-- Witness for C4 at the weather key. -/
theorem C4_tools_count_matches_witness :
    ("weather" ∈ registeredKeys) ∧
    ((root.endpoints_info.find? (fun p => p.1 == "weather")).map
        (fun p => p.2.tools_count)) =
      (get_mcp_tools "weather").toOption.map List.length :=
  ⟨by decide, C4_tools_count_matches "weather" (by decide)⟩

/-- Claim C5: `get_tool_description` at the database endpoint and tool name
`list_tables` succeeds, and the returned descriptor's input schema carries an
empty `required` list. -/
theorem C5_list_tables_no_required :
    ∃ t : Tool, get_tool_description "database" "list_tables" = .ok t ∧
      t.inputSchema.getField "required" = some (.arr []) :=
  ⟨_, rfl, rfl⟩

/-- Claim C6: `get_tool_description` at the file endpoint and tool name
`write_file` succeeds, and the returned descriptor's input schema requires
exactly `path` then `content`, in that order. -/
theorem C6_write_file_required_fields :
    ∃ t : Tool, get_tool_description "file" "write_file" = .ok t ∧
      t.inputSchema.getField "required" =
        some (.arr [.str "path", .str "content"]) :=
  ⟨_, rfl, rfl⟩

/-- Claim C7: requesting the weather endpoint with tool name
`nonexistent_tool` yields a 404 whose detail names exactly the two valid
weather tools, `get_weather` and `get_forecast`. -/
theorem C7_weather_unknown_tool_404 :
    get_tool_description "weather" "nonexistent_tool" =
      .error ⟨404, "工具 \x27nonexistent_tool\x27 在端点 \x27weather\x27 中不存在。可用的工具: get_weather, get_forecast"⟩ :=
  rfl

/-- Claim C8: within every configuration of the registry the tool names are
pairwise distinct, and the invariant is preserved by every operation because
no handler program ever writes the registry. -/
theorem C8_tool_names_unique_and_preserved :
    (∀ p ∈ MCP_CONFIGS, (p.2.tools.map Tool.name).Nodup) ∧
    rootP.NoWrite ∧
    (∀ e, (get_mcp_configP e).NoWrite) ∧
    (∀ e, (get_mcp_server_infoP e).NoWrite) ∧
    (∀ e, (get_mcp_toolsP e).NoWrite) ∧
    (∀ e tn, (get_tool_descriptionP e tn).NoWrite) ∧
    list_all_endpointsP.NoWrite :=
  ⟨registry_tools_nodup,
    .read _ (fun _ => .ret _),
    fun _ => .read _ (fun _ => .ret _),
    fun _ => .read _ (fun _ => .ret _),
    fun _ => .read _ (fun _ => .ret _),
    fun _ _ => .read _ (fun _ => .ret _),
    .read _ (fun _ => .ret _)⟩

/-- Witness for C8 at the weather entry. -/
theorem C8_tool_names_unique_and_preserved_witness :
    ("weather", weatherConfig) ∈ MCP_CONFIGS ∧
      (weatherConfig.tools.map Tool.name).Nodup :=
  ⟨List.Mem.head _,
    C8_tool_names_unique_and_preserved.1 ("weather", weatherConfig)
      (List.Mem.head _)⟩

/-- Claim C9: every handler is a pure read: running any of the six handler
programs from any registry state leaves the state unchanged, on success and
on not-found alike. -/
theorem C9_handlers_pure (s : Registry) :
    (rootP.run s).2 = s ∧
    (∀ e, ((get_mcp_configP e).run s).2 = s) ∧
    (∀ e, ((get_mcp_server_infoP e).run s).2 = s) ∧
    (∀ e, ((get_mcp_toolsP e).run s).2 = s) ∧
    (∀ e tn, ((get_tool_descriptionP e tn).run s).2 = s) ∧
    (list_all_endpointsP.run s).2 = s :=
  ⟨RegProg.run_snd_of_noWrite (.read _ (fun _ => .ret _)) s,
    fun _ => RegProg.run_snd_of_noWrite (.read _ (fun _ => .ret _)) s,
    fun _ => RegProg.run_snd_of_noWrite (.read _ (fun _ => .ret _)) s,
    fun _ => RegProg.run_snd_of_noWrite (.read _ (fun _ => .ret _)) s,
    fun _ _ => RegProg.run_snd_of_noWrite (.read _ (fun _ => .ret _)) s,
    RegProg.run_snd_of_noWrite (.read _ (fun _ => .ret _)) s⟩

/-- Claim C10: round trip between the tool-list and single-tool lookups: every
tool in a successful `get_mcp_tools` answer is returned unchanged by
`get_tool_description` when queried by its own name. -/
theorem C10_getTools_getTool_roundtrip (k : String) (ts : List Tool)
    (h : get_mcp_tools k = .ok ts) :
    ∀ t ∈ ts, get_tool_description k t.name = .ok t := by
  intro t ht
  cases hc : lookupConfigR MCP_CONFIGS k with
  | none =>
    rw [show get_mcp_tools k = _ from get_mcp_toolsR_eq_error hc] at h
    exact Except.noConfusion h
  | some config =>
    rw [show get_mcp_tools k = _ from get_mcp_toolsR_eq_ok hc] at h
    injection h with hts
    subst hts
    rcases lookupConfigR_mem hc with ⟨p, hp, hpc⟩
    have hnodup : (config.tools.map Tool.name).Nodup :=
      hpc ▸ registry_tools_nodup p hp
    exact get_tool_descriptionR_eq_ok hc
      (find?_name_of_mem_nodup config.tools t ht hnodup)

/-- Witness for C10: the first weather tool round-trips. -/
theorem C10_getTools_getTool_roundtrip_witness :
    get_tool_description "weather"
        ((weatherConfig.tools.get ⟨0, by decide⟩).name) =
      .ok (weatherConfig.tools.get ⟨0, by decide⟩) :=
  C10_getTools_getTool_roundtrip "weather" weatherConfig.tools rfl _
    (weatherConfig.tools.get_mem 0 _)
